import Mathlib

/-!
Verification development for the SecureCom relay server (src/server.py).

The server keeps a global registry ROOMS mapping a room code to a Python
dict from websocket object to display name.  Each connection runs the
session loop of websocket_handler, holding a local current_room_code.
We embed the registry as an association list with string keys, a member
dict as an association list keyed by an opaque connection id (Nat), and
the per-frame dispatch of websocket_handler as a pure function from the
parsed inbound JSON value, the two random oracle outcomes (generated room
code and generated username) and the current state to the next state plus
the list of envelopes sent, each paired with its receiving connection.
-/

namespace SecureCom

/-- JSON values, covering the fragment the protocol exchanges: strings,
integers, null and objects.  An object is the association list of its
fields (JSON objects parsed by json.loads have distinct keys). -/
inductive Json where
  | str : String → Json
  | num : Int → Json
  | null : Json
  | obj : List (String × Json) → Json

/-- Association-list lookup, modelling Python dict indexing and the
`in` containment test (via isSome). -/
def alookup {α β : Type} [DecidableEq α] : List (α × β) → α → Option β
  | [], _ => none
  | (k, v) :: rest, key => if k = key then some v else alookup rest key

/-- Association-list update, modelling Python dict assignment
d[key] = val: an existing key keeps its position and gets the new value,
a fresh key is appended at the end (dict insertion order). -/
def aset {α β : Type} [DecidableEq α] : List (α × β) → α → β → List (α × β)
  | [], key, val => [(key, val)]
  | (k, v) :: rest, key, val =>
      if k = key then (key, val) :: rest else (k, v) :: aset rest key val

/-- Association-list deletion, modelling Python dict.pop(key) and
del d[key].  Dicts have at most one entry per key, so removing every
occurrence agrees with removing the unique one. -/
def aerase {α β : Type} [DecidableEq α] : List (α × β) → α → List (α × β)
  | [], _ => []
  | (k, v) :: rest, key =>
      if k = key then aerase rest key else (k, v) :: aerase rest key

mutual

/-- CPython str() of a value of the modelled JSON fragment (used by the
server only in str(custom_code) and in the f-string of the unknown-action
reply): a string is itself, otherwise the repr. -/
def Json.pyStr : Json → String
  | .str s => s
  | .num n => toString n
  | .null => "None"
  | .obj fs => "\x7b" ++ Json.pyReprFields fs ++ "\x7d"

/-- CPython repr() of one nested value. -/
def Json.pyRepr : Json → String
  | .str s => "\x27" ++ s ++ "\x27"
  | .num n => toString n
  | .null => "None"
  | .obj fs => "\x7b" ++ Json.pyReprFields fs ++ "\x7d"

/-- CPython repr() of the fields of a dict, comma separated. -/
def Json.pyReprFields : List (String × Json) → String
  | [] => ""
  | [(k, v)] => "\x27" ++ k ++ "\x27: " ++ Json.pyRepr v
  | (k, v) :: rest =>
      "\x27" ++ k ++ "\x27: " ++ Json.pyRepr v ++ ", " ++ Json.pyReprFields rest

end

/-- Python truthiness of a value of the JSON fragment: None, the empty
string, zero and the empty dict are falsy, everything else truthy. -/
def Json.truthy : Json → Bool
  | .null => false
  | .str s => if s = "" then false else true
  | .num n => if n = 0 then false else true
  | .obj [] => false
  | .obj (_ :: _) => true

/-- payload.get(key): field lookup on a dict, none when absent or when the
value is not a dict. -/
def Json.get : Json → String → Option Json
  | .obj fs, key => alookup fs key
  | _, _ => none

/-- str() of the dispatch kind in the unknown-action f-string; the Python
value None prints as None. -/
def optPyStr : Option Json → String
  | none => "None"
  | some j => j.pyStr

/-- Truthiness of payload.get(...): an absent field is Python None. -/
def optTruthy : Option Json → Bool
  | none => false
  | some j => j.truthy

/-- Truthiness of the current_room_code local (an Option String): None and
the empty string are falsy. -/
def curTruthy : Option String → Bool
  | none => false
  | some s => if s = "" then false else true

/-- An outbound envelope: the JSON object passed to json.dumps, as the
association list of its fields in construction order. -/
abbrev Envelope := List (String × Json)

/-- The member dict of one room: websocket id to display name. -/
abbrev Members := List (Nat × String)

/-- The global ROOMS registry: room code to member dict. -/
abbrev Rooms := List (String × Members)

def errorEnv (m : String) : Envelope :=
  [("type", Json.str "error"), ("message", Json.str m)]

def statusEnv : Envelope :=
  [("type", Json.str "status"),
   ("message", Json.str "Connected to SecureCom WebSocket server")]

def roomCreatedEnv (code userName : String) : Envelope :=
  [("type", Json.str "room_created"), ("code", Json.str code),
   ("userName", Json.str userName)]

def joinedSuccessEnv (code userName : String) : Envelope :=
  [("type", Json.str "joined_success"), ("code", Json.str code),
   ("userName", Json.str userName)]

def userJoinedEnv (userName : String) : Envelope :=
  [("type", Json.str "user_joined"), ("userName", Json.str userName)]

def newMessageEnv (sender : String) (text : Json) : Envelope :=
  [("type", Json.str "new_message"), ("userName", Json.str sender),
   ("text", text)]

def newFileEnv (nameField urlField : Option Json) (sender : String) : Envelope :=
  [("type", Json.str "new_file"), ("name", nameField.getD Json.null),
   ("url", urlField.getD Json.null), ("userName", Json.str sender)]

def userLeftEnv (userName : String) : Envelope :=
  [("type", Json.str "user_left"), ("userName", Json.str userName)]

/-- normalize_incoming: kind is data["action"] when present, else
data["type"], else None; non-dict data has kind None.  The payload is the
data itself. -/
def normalize_incoming (data : Json) : Option Json × Json :=
  match data with
  | .obj fs =>
      match alookup fs "action" with
      | some v => (some v, data)
      | none =>
          match alookup fs "type" with
          | some v => (some v, data)
          | none => (none, data)
  | _ => (none, data)

/-- handle_disconnect(ws, room_code): when ws is a member of the room, pop
it; delete the room when it became empty, otherwise notify the remaining
members with a user_left envelope.  Returns the new registry, the popped
display name (none when ws was not a member) and the envelopes sent. -/
def handle_disconnect (rooms : Rooms) (ws : Nat) (room_code : String) :
    Rooms × Option String × List (Nat × Envelope) :=
  match alookup rooms room_code with
  | none => (rooms, none, [])
  | some mem =>
      match alookup mem ws with
      | none => (rooms, none, [])
      | some user_name =>
          let mem2 := aerase mem ws
          if mem2 = [] then
            (aerase rooms room_code, some user_name, [])
          else
            (aset rooms room_code mem2, some user_name,
             mem2.map (fun m => (m.1, userLeftEnv user_name)))

/-- Result of processing one parsed inbound text frame: the new ROOMS
registry, the new current_room_code of this connection, and the envelopes
sent with their receivers. -/
structure HandlerResult where
  rooms : Rooms
  cur : Option String
  sends : List (Nat × Envelope)

/-- One dispatch round of the session loop of websocket_handler on parsed
JSON data.  genCode is the outcome the random generator would produce for
a create without a code, userName the outcome of gen_username(); both are
oracle parameters of the embedding.  The result is none exactly when the
dispatch raises an uncaught exception: the unguarded registry access
ROOMS[current_room_code] in the message branch, and the membership test
room_code not in ROOMS in the join branch when the truthy code is a dict
(unhashable, TypeError); a numeric code is hashable and simply absent from
the string-keyed registry, and a null code is falsy and already answered
by the missing-code check. -/
def handleData (ws : Nat) (data : Json) (genCode userName : String)
    (rooms : Rooms) (cur : Option String) : Option HandlerResult :=
  match (normalize_incoming data).1 with
  | some (.str "create") =>
      let room_code :=
        match data.get "code" with
        | some c => if c.truthy then c.pyStr else genCode
        | none => genCode
      let mem := (alookup rooms room_code).getD []
      some { rooms := aset rooms room_code (aset mem ws userName),
             cur := some room_code,
             sends := [(ws, roomCreatedEnv room_code userName)] }
  | some (.str "join") =>
      match data.get "code" with
      | none =>
          some { rooms := rooms, cur := cur,
                 sends := [(ws, errorEnv "Missing room code")] }
      | some c =>
          if c.truthy then
            match c with
            | .str s =>
                match alookup rooms s with
                | none =>
                    some { rooms := rooms, cur := cur,
                           sends := [(ws, errorEnv "Room does not exist")] }
                | some mem =>
                    let mem2 := aset mem ws userName
                    some { rooms := aset rooms s mem2, cur := some s,
                           sends := (ws, joinedSuccessEnv s userName) ::
                             mem2.map (fun m => (m.1, userJoinedEnv userName)) }
            | .num _ =>
                some { rooms := rooms, cur := cur,
                       sends := [(ws, errorEnv "Room does not exist")] }
            | _ =>
                none
          else
            some { rooms := rooms, cur := cur,
                   sends := [(ws, errorEnv "Missing room code")] }
  | some (.str "leave") =>
      if curTruthy cur then
        let hd := handle_disconnect rooms ws (cur.getD "")
        some { rooms := hd.1, cur := none,
               sends := hd.2.2 ++ [(ws, errorEnv "Left room")] }
      else
        some { rooms := rooms, cur := cur,
               sends := [(ws, errorEnv "Not in a room")] }
  | some (.str "message") =>
      if curTruthy cur then
        match alookup rooms (cur.getD "") with
        | none => none
        | some mem =>
            let text := (data.get "text").getD (Json.str "")
            let sender := (alookup mem ws).getD "Unknown"
            some { rooms := rooms, cur := cur,
                   sends := mem.map (fun m => (m.1, newMessageEnv sender text)) }
      else
        some { rooms := rooms, cur := cur,
               sends := [(ws, errorEnv "Not in a room")] }
  | some (.str "file") =>
      if curTruthy cur then
        let sender :=
          (alookup ((alookup rooms (cur.getD "")).getD []) ws).getD "Unknown"
        let env := newFileEnv (data.get "name") (data.get "url") sender
        match alookup rooms (cur.getD "") with
        | none => some { rooms := rooms, cur := cur, sends := [] }
        | some mem =>
            some { rooms := rooms, cur := cur,
                   sends := mem.map (fun m => (m.1, env)) }
      else
        some { rooms := rooms, cur := cur,
               sends := [(ws, errorEnv "Not in a room")] }
  | k =>
      some { rooms := rooms, cur := cur,
             sends := [(ws, errorEnv ("Unknown action: " ++ optPyStr k))] }

/-- Global state of the server: the ROOMS registry and, for every
connection id, the current_room_code local of its session loop (none for
connections whose loop has not set it, or that are closed). -/
structure GState where
  rooms : Rooms
  cur : Nat → Option String

/-- The finally block of websocket_handler: when current_room_code is
truthy, handle_disconnect on it; otherwise sweep a snapshot of all room
codes and run handle_disconnect on each.  The session is over, so the
current_room_code local ceases to exist. -/
def doDisconnect (ws : Nat) (s : GState) : GState :=
  if curTruthy (s.cur ws) then
    { rooms := (handle_disconnect s.rooms ws ((s.cur ws).getD "")).1,
      cur := fun c => if c = ws then none else s.cur c }
  else
    { rooms := (s.rooms.map Prod.fst).foldl
        (fun acc rc => (handle_disconnect acc ws rc).1) s.rooms,
      cur := fun c => if c = ws then none else s.cur c }

/-- An observable event of the system: one inbound text frame on one
connection (parsed is none for text that json.loads rejects), or the
termination of one connection. -/
inductive Event where
  | frame (ws : Nat) (parsed : Option Json) (genCode userName : String)
  | disconnect (ws : Nat)

/-- One step of the whole server: a rejected frame is ignored; a dispatch
that raises escapes the loop and runs the finally cleanup. -/
def step (s : GState) (e : Event) : GState :=
  match e with
  | .frame ws parsed genCode userName =>
      match parsed with
      | none => s
      | some data =>
          match handleData ws data genCode userName s.rooms (s.cur ws) with
          | some res =>
              { rooms := res.rooms,
                cur := fun c => if c = ws then res.cur else s.cur c }
          | none => doDisconnect ws s
  | .disconnect ws => doDisconnect ws s

/-- The server starts with no rooms and every session loop unstarted. -/
def init : GState := { rooms := [], cur := fun _ => none }

/-- States reachable by any sequence of events from the initial state. -/
inductive Reachable : GState → Prop where
  | init : Reachable init
  | step : ∀ s e, Reachable s → Reachable (step s e)

/-- The alphabet of generated room codes:
string.ascii_uppercase + string.digits. -/
def roomAlphabet : List Char :=
  "ABCDEFGHIJKLMNOPQRSTUVWXYZ0123456789".toList

/-- A possible outcome of random.choices(roomAlphabet, k=6) joined to a
string: length 6, every character from the alphabet. -/
def validGenCode (s : String) : Bool :=
  s.length = 6 && s.toList.all (fun c => roomAlphabet.contains c)

/-- Connection c is recorded as a member of room r in the registry. -/
def memberOfR (rooms : Rooms) (c : Nat) (r : String) : Prop :=
  ∃ mem, alookup rooms r = some mem ∧ (alookup mem c).isSome

/-- No room recorded in the registry has an empty member dict. -/
def noEmptyR (rooms : Rooms) : Prop := ∀ p ∈ rooms, p.2 ≠ []

/-- The state invariant maintained by every event: no registered room is
empty, and every session loop whose current_room_code is set points at a
live room the connection is a member of. -/
def Inv (s : GState) : Prop :=
  noEmptyR s.rooms ∧ ∀ c r, s.cur c = some r → memberOfR s.rooms c r

/-- Inbound create frame with an explicit room code. -/
def createMsg (code : String) : Json :=
  Json.obj [("action", Json.str "create"), ("code", Json.str code)]

/-- Inbound create frame without a code. -/
def createMsgAuto : Json :=
  Json.obj [("action", Json.str "create")]

/-- Inbound join frame. -/
def joinMsg (code : String) : Json :=
  Json.obj [("action", Json.str "join"), ("code", Json.str code)]

/-- Inbound chat message frame. -/
def messageMsg (text : String) : Json :=
  Json.obj [("action", Json.str "message"), ("text", Json.str text)]

/-- Inbound file frame in the shape the spec documents. -/
def fileMsgSpec (filename filetype filedata : String) : Json :=
  Json.obj [("action", Json.str "file"), ("filename", Json.str filename),
            ("filetype", Json.str filetype), ("filedata", Json.str filedata)]

/-- Inbound leave frame. -/
def leaveMsg : Json :=
  Json.obj [("action", Json.str "leave")]

/-! Concrete reachable states used as test fixtures by witnesses and
counterexamples. -/

/-- Connection 0 created room ROOMA. -/
def sOne : GState :=
  step init (Event.frame 0 (some (createMsg "ROOMA")) "GGGGGG" "User0000")

/-- Connection 1 created room ROOMA. -/
def sROne : GState :=
  step init (Event.frame 1 (some (createMsg "ROOMA")) "GGGGGG" "User1111")

/-- Connection 0 created ROOM01, then connection 1 joined it. -/
def sPair : GState :=
  step (step init (Event.frame 0 (some (createMsg "ROOM01")) "GGGGGG" "User0000"))
    (Event.frame 1 (some (joinMsg "ROOM01")) "GGGGGG" "User1111")

/-- Connection 0 created ROOMA, then created ROOMB without leaving. -/
def sTwoRooms : GState :=
  step (step init (Event.frame 0 (some (createMsg "ROOMA")) "GGGGGG" "UserA"))
    (Event.frame 0 (some (createMsg "ROOMB")) "GGGGGG" "UserB")

/-- After sTwoRooms, connection 0 disconnects: the finally block of
websocket_handler cleans only the current room ROOMB, so the stale
membership of the closed connection in ROOMA survives. -/
def sStale : GState := step sTwoRooms (Event.disconnect 0)

/-- Connection 1 created a room with the generated code AAAAAA. -/
def sCol : GState :=
  step init (Event.frame 1 (some createMsgAuto) "AAAAAA" "User1111")

/-- A registry with one room ROOMA whose sole member is connection 1. -/
def roomsOne : Rooms := [("ROOMA", [(1, "User1111")])]

/-! ### Association-list lemmas (dict semantics) -/

theorem alookup_aset_self {α β : Type} [DecidableEq α] (l : List (α × β)) (k : α) (v : β) :
    alookup (aset l k v) k = some v := by
  induction l with
  | nil => simp [aset, alookup]
  | cons p rest ih =>
      obtain ⟨k1, v1⟩ := p
      by_cases h : k1 = k
      · simp [aset, h, alookup]
      · simp [aset, h, alookup, ih]

theorem alookup_aset_ne {α β : Type} [DecidableEq α] (l : List (α × β)) (k k2 : α)
    (v : β) (h : k ≠ k2) : alookup (aset l k v) k2 = alookup l k2 := by
  induction l with
  | nil => simp [aset, alookup, h]
  | cons p rest ih =>
      obtain ⟨k1, v1⟩ := p
      by_cases h1 : k1 = k
      · subst h1
        simp [aset, alookup, h]
      · simp only [aset, if_neg h1, alookup]
        split <;> simp [ih]

theorem alookup_aerase_self {α β : Type} [DecidableEq α] (l : List (α × β)) (k : α) :
    alookup (aerase l k) k = none := by
  induction l with
  | nil => simp [aerase, alookup]
  | cons p rest ih =>
      obtain ⟨k1, v1⟩ := p
      by_cases h : k1 = k
      · simp [aerase, h, ih]
      · simp [aerase, h, alookup, ih]

theorem alookup_aerase_ne {α β : Type} [DecidableEq α] (l : List (α × β)) (k k2 : α)
    (h : k2 ≠ k) : alookup (aerase l k2) k = alookup l k := by
  induction l with
  | nil => simp [aerase]
  | cons p rest ih =>
      obtain ⟨k1, v1⟩ := p
      by_cases h1 : k1 = k2
      · subst h1
        have : ¬ k1 = k := fun hk => h (hk ▸ rfl)
        simp [aerase, alookup, this, ih]
      · simp only [aerase, if_neg h1, alookup]
        split <;> simp [ih]

theorem aset_ne_nil {α β : Type} [DecidableEq α] (l : List (α × β)) (k : α) (v : β) :
    aset l k v ≠ [] := by
  cases l with
  | nil => simp [aset]
  | cons p rest =>
      obtain ⟨k1, v1⟩ := p
      by_cases h : k1 = k <;> simp [aset, h]

theorem mem_aset {α β : Type} [DecidableEq α] {l : List (α × β)} {k : α} {v : β}
    {p : α × β} (hp : p ∈ aset l k v) : p = (k, v) ∨ p ∈ l := by
  induction l with
  | nil =>
      simp only [aset, List.mem_singleton] at hp
      exact Or.inl hp
  | cons q rest ih =>
      obtain ⟨k1, v1⟩ := q
      by_cases h : k1 = k
      · simp only [aset, if_pos h] at hp
        rcases List.mem_cons.mp hp with h1 | h1
        · exact Or.inl h1
        · exact Or.inr (List.mem_cons_of_mem _ h1)
      · simp only [aset, if_neg h] at hp
        rcases List.mem_cons.mp hp with h1 | h1
        · exact Or.inr (h1 ▸ List.mem_cons_self _ _)
        · rcases ih h1 with h2 | h2
          · exact Or.inl h2
          · exact Or.inr (List.mem_cons_of_mem _ h2)

theorem mem_aerase {α β : Type} [DecidableEq α] {l : List (α × β)} {k : α}
    {p : α × β} (hp : p ∈ aerase l k) : p ∈ l := by
  induction l with
  | nil => simp [aerase] at hp
  | cons q rest ih =>
      obtain ⟨k1, v1⟩ := q
      by_cases h : k1 = k
      · simp only [aerase, if_pos h] at hp
        exact List.mem_cons_of_mem _ (ih hp)
      · simp only [aerase, if_neg h] at hp
        rcases List.mem_cons.mp hp with h1 | h1
        · exact h1 ▸ List.mem_cons_self _ _
        · exact List.mem_cons_of_mem _ (ih h1)

/-! ### Registry invariants -/

theorem hd_eq_noroom (rooms : Rooms) (ws : Nat) (rc : String)
    (h : alookup rooms rc = none) :
    handle_disconnect rooms ws rc = (rooms, none, []) := by
  simp [handle_disconnect, h]

theorem hd_eq_notmem (rooms : Rooms) (ws : Nat) (rc : String) (mem : Members)
    (h1 : alookup rooms rc = some mem) (h2 : alookup mem ws = none) :
    handle_disconnect rooms ws rc = (rooms, none, []) := by
  simp [handle_disconnect, h1, h2]

theorem hd_eq_last (rooms : Rooms) (ws : Nat) (rc : String) (mem : Members)
    (name : String) (h1 : alookup rooms rc = some mem)
    (h2 : alookup mem ws = some name) (h3 : aerase mem ws = []) :
    handle_disconnect rooms ws rc = (aerase rooms rc, some name, []) := by
  simp [handle_disconnect, h1, h2, h3]

theorem hd_eq_rem (rooms : Rooms) (ws : Nat) (rc : String) (mem : Members)
    (name : String) (h1 : alookup rooms rc = some mem)
    (h2 : alookup mem ws = some name) (h3 : aerase mem ws ≠ []) :
    handle_disconnect rooms ws rc =
      (aset rooms rc (aerase mem ws), some name,
       (aerase mem ws).map (fun m => (m.1, userLeftEnv name))) := by
  simp [handle_disconnect, h1, h2, h3]

theorem hd_noEmpty (rooms : Rooms) (ws : Nat) (rc : String) (h : noEmptyR rooms) :
    noEmptyR (handle_disconnect rooms ws rc).1 := by
  cases hrm : alookup rooms rc with
  | none => rw [hd_eq_noroom rooms ws rc hrm]; exact h
  | some mem =>
      cases hws : alookup mem ws with
      | none => rw [hd_eq_notmem rooms ws rc mem hrm hws]; exact h
      | some name =>
          by_cases hemp : aerase mem ws = []
          · rw [hd_eq_last rooms ws rc mem name hrm hws hemp]
            intro p hp
            exact h p (mem_aerase hp)
          · rw [hd_eq_rem rooms ws rc mem name hrm hws hemp]
            intro p hp
            rcases mem_aset hp with h1 | h1
            · rw [h1]
              exact hemp
            · exact h p h1

theorem hd_pres (rooms : Rooms) (ws c : Nat) (rc r : String) (hne : c ≠ ws)
    (h : memberOfR rooms c r) : memberOfR (handle_disconnect rooms ws rc).1 c r := by
  obtain ⟨mem0, hm0, hc0⟩ := h
  cases hrm : alookup rooms rc with
  | none => exact ⟨mem0, by rw [hd_eq_noroom rooms ws rc hrm]; exact hm0, hc0⟩
  | some mem =>
      cases hws : alookup mem ws with
      | none => exact ⟨mem0, by rw [hd_eq_notmem rooms ws rc mem hrm hws]; exact hm0, hc0⟩
      | some name =>
          by_cases hrrc : r = rc
          · subst hrrc
            have hmem : mem0 = mem := by rw [hm0] at hrm; exact Option.some.inj hrm
            subst hmem
            have hc2 : (alookup (aerase mem0 ws) c).isSome := by
              rw [alookup_aerase_ne _ c ws (Ne.symm hne)]
              exact hc0
            by_cases hemp : aerase mem0 ws = []
            · rw [hemp] at hc2
              simp [alookup] at hc2
            · rw [hd_eq_rem rooms ws r mem0 name hrm hws hemp]
              exact ⟨aerase mem0 ws, alookup_aset_self _ _ _, hc2⟩
          · have hne2 : rc ≠ r := fun hk => hrrc (hk ▸ rfl)
            by_cases hemp : aerase mem ws = []
            · rw [hd_eq_last rooms ws rc mem name hrm hws hemp]
              refine ⟨mem0, ?_, hc0⟩
              rw [alookup_aerase_ne _ r rc hne2]
              exact hm0
            · rw [hd_eq_rem rooms ws rc mem name hrm hws hemp]
              refine ⟨mem0, ?_, hc0⟩
              rw [alookup_aset_ne _ rc r _ hne2]
              exact hm0

theorem fold_hd_noEmpty (keys : List String) (ws : Nat) (acc : Rooms)
    (h : noEmptyR acc) :
    noEmptyR (keys.foldl (fun a rc => (handle_disconnect a ws rc).1) acc) := by
  induction keys generalizing acc with
  | nil => exact h
  | cons k rest ih => exact ih _ (hd_noEmpty acc ws k h)

theorem fold_hd_pres (keys : List String) (ws c : Nat) (r : String) (acc : Rooms)
    (hne : c ≠ ws) (h : memberOfR acc c r) :
    memberOfR (keys.foldl (fun a rc => (handle_disconnect a ws rc).1) acc) c r := by
  induction keys generalizing acc with
  | nil => exact h
  | cons k rest ih => exact ih _ (hd_pres acc ws c k r hne h)

theorem inv_doDisconnect (ws : Nat) (s : GState) (h : Inv s) :
    Inv (doDisconnect ws s) := by
  obtain ⟨hno, hcur⟩ := h
  unfold doDisconnect
  by_cases hct : curTruthy (s.cur ws)
  · rw [if_pos hct]
    refine ⟨hd_noEmpty _ _ _ hno, ?_⟩
    intro c r hc
    by_cases hcw : c = ws
    · simp [hcw] at hc
    · simp only [if_neg hcw] at hc
      exact hd_pres _ _ _ _ _ hcw (hcur c r hc)
  · rw [if_neg hct]
    refine ⟨fold_hd_noEmpty _ _ _ hno, ?_⟩
    intro c r hc
    by_cases hcw : c = ws
    · simp [hcw] at hc
    · simp only [if_neg hcw] at hc
      exact fold_hd_pres _ _ _ _ _ hcw (hcur c r hc)

end SecureCom
namespace SecureCom

theorem setRoom_inv (rooms : Rooms) (rc : String) (mem : Members) (ws : Nat)
    (u : String) (hno : noEmptyR rooms)
    (hagree : ∀ mem0, alookup rooms rc = some mem0 → mem = mem0) :
    noEmptyR (aset rooms rc (aset mem ws u)) ∧
    (∀ c r, c ≠ ws → memberOfR rooms c r →
      memberOfR (aset rooms rc (aset mem ws u)) c r) ∧
    memberOfR (aset rooms rc (aset mem ws u)) ws rc := by
  refine ⟨?_, ?_, ?_⟩
  · intro p hp
    rcases mem_aset hp with h1 | h1
    · rw [h1]
      exact aset_ne_nil _ _ _
    · exact hno p h1
  · intro c r hc hm
    obtain ⟨mem0, hm0, hc0⟩ := hm
    by_cases hr : rc = r
    · subst hr
      obtain rfl := hagree mem0 hm0
      refine ⟨aset mem ws u, alookup_aset_self _ _ _, ?_⟩
      rw [alookup_aset_ne _ ws c _ (Ne.symm hc)]
      exact hc0
    · refine ⟨mem0, ?_, hc0⟩
      rw [alookup_aset_ne _ rc r _ hr]
      exact hm0
  · refine ⟨aset mem ws u, alookup_aset_self _ _ _, ?_⟩
    rw [alookup_aset_self]
    rfl

theorem handleData_inv (ws : Nat) (data : Json) (g u : String) (rooms : Rooms)
    (cur : Option String) (res : HandlerResult)
    (h : handleData ws data g u rooms cur = some res) (hno : noEmptyR rooms) :
    noEmptyR res.rooms ∧
    (∀ c r, c ≠ ws → memberOfR rooms c r → memberOfR res.rooms c r) ∧
    (∀ r, res.cur = some r →
      (res.rooms = rooms ∧ res.cur = cur) ∨ memberOfR res.rooms ws r) := by
  unfold handleData at h
  split at h
  -- create
  · cases h
    refine ⟨?_, ?_, ?_⟩
    · exact (setRoom_inv _ _ _ ws u hno (fun m0 h0 => by rw [h0]; rfl)).1
    · intro c r hc hm
      exact (setRoom_inv _ _ _ ws u hno (fun m0 h0 => by rw [h0]; rfl)).2.1 c r hc hm
    · intro r hr
      obtain rfl := Option.some.inj hr
      exact Or.inr (setRoom_inv _ _ _ ws u hno (fun m0 h0 => by rw [h0]; rfl)).2.2
  -- join
  · split at h
    · cases h
      exact ⟨hno, fun c r hc hm => hm, fun r hr => Or.inl ⟨rfl, rfl⟩⟩
    · split at h
      · split at h
        · split at h
          · cases h
            exact ⟨hno, fun c r hc hm => hm, fun r hr => Or.inl ⟨rfl, rfl⟩⟩
          · next mem heq =>
            cases h
            refine ⟨?_, ?_, ?_⟩
            · exact (setRoom_inv _ _ _ ws u hno
                (fun m0 h0 => by rw [heq] at h0; exact Option.some.inj h0)).1
            · intro c r hc hm
              exact (setRoom_inv _ _ _ ws u hno
                (fun m0 h0 => by rw [heq] at h0; exact Option.some.inj h0)).2.1 c r hc hm
            · intro r hr
              obtain rfl := Option.some.inj hr
              exact Or.inr (setRoom_inv _ _ _ ws u hno
                (fun m0 h0 => by rw [heq] at h0; exact Option.some.inj h0)).2.2
        · cases h
          exact ⟨hno, fun c r hc hm => hm, fun r hr => Or.inl ⟨rfl, rfl⟩⟩
        · exact Option.noConfusion h
      · cases h
        exact ⟨hno, fun c r hc hm => hm, fun r hr => Or.inl ⟨rfl, rfl⟩⟩
  -- leave
  · split at h
    · cases h
      refine ⟨hd_noEmpty _ _ _ hno, ?_, ?_⟩
      · intro c r hc hm
        exact hd_pres _ _ _ _ _ hc hm
      · intro r hr
        exact Option.noConfusion hr
    · cases h
      exact ⟨hno, fun c r hc hm => hm, fun r hr => Or.inl ⟨rfl, rfl⟩⟩
  -- message
  · split at h
    · split at h
      · exact Option.noConfusion h
      · cases h
        exact ⟨hno, fun c r hc hm => hm, fun r hr => Or.inl ⟨rfl, rfl⟩⟩
    · cases h
      exact ⟨hno, fun c r hc hm => hm, fun r hr => Or.inl ⟨rfl, rfl⟩⟩
  -- file
  · split at h
    · split at h
      · cases h
        exact ⟨hno, fun c r hc hm => hm, fun r hr => Or.inl ⟨rfl, rfl⟩⟩
      · cases h
        exact ⟨hno, fun c r hc hm => hm, fun r hr => Or.inl ⟨rfl, rfl⟩⟩
    · cases h
      exact ⟨hno, fun c r hc hm => hm, fun r hr => Or.inl ⟨rfl, rfl⟩⟩
  -- unknown kind
  · cases h
    exact ⟨hno, fun c r hc hm => hm, fun r hr => Or.inl ⟨rfl, rfl⟩⟩

theorem inv_step (s : GState) (e : Event) (h : Inv s) : Inv (step s e) := by
  obtain ⟨hno, hcur⟩ := h
  cases e with
  | disconnect ws => exact inv_doDisconnect ws s ⟨hno, hcur⟩
  | frame ws parsed g u =>
      cases parsed with
      | none => exact ⟨hno, hcur⟩
      | some data =>
          show Inv (match handleData ws data g u s.rooms (s.cur ws) with
            | some res =>
                { rooms := res.rooms,
                  cur := fun c => if c = ws then res.cur else s.cur c }
            | none => doDisconnect ws s)
          cases hh : handleData ws data g u s.rooms (s.cur ws) with
          | none =>
              dsimp only
              exact inv_doDisconnect ws s ⟨hno, hcur⟩
          | some res =>
              dsimp only
              obtain ⟨h1, h2, h3⟩ :=
                handleData_inv ws data g u s.rooms (s.cur ws) res hh hno
              refine ⟨h1, ?_⟩
              intro c r hc
              dsimp only at hc ⊢
              by_cases hcw : c = ws
              · subst hcw
                rw [if_pos rfl] at hc
                rcases h3 r hc with ⟨hrf, hcf⟩ | hm
                · rw [hrf]
                  apply hcur
                  rw [← hcf]
                  exact hc
                · exact hm
              · rw [if_neg hcw] at hc
                exact h2 c r hcw (hcur c r hc)

theorem reachable_inv (s : GState) (h : Reachable s) : Inv s := by
  induction h with
  | init =>
      exact ⟨fun p hp => absurd hp (List.not_mem_nil p),
             fun c r hc => Option.noConfusion hc⟩
  | step s e hs ih => exact inv_step s e ih

/-! ### Claim theorems -/

/-- C5: for a connection not in a room and a room id absent from the
registry, a join frame with that id is answered with a single
Room-does-not-exist error envelope to the joining connection only; the
registry, the current room (still none, UNJOINED) and the connection
(dispatch returns, no exception) are unchanged. -/
theorem join_nonexistent_room_unchanged (rooms : Rooms) (ws : Nat)
    (code g u : String) (hcode : code ≠ "") (habs : alookup rooms code = none) :
    handleData ws (joinMsg code) g u rooms none =
      some { rooms := rooms, cur := none,
             sends := [(ws, errorEnv "Room does not exist")] } := by
  simp [handleData, joinMsg, normalize_incoming, Json.get, alookup, Json.truthy,
    hcode, habs]

/-- Witness for C5 at a concrete absent room id. -/
theorem join_nonexistent_room_unchanged_witness :
    handleData 0 (joinMsg "ROOMX") "GGGGGG" "User0000" [] none =
      some { rooms := [], cur := none,
             sends := [(0, errorEnv "Room does not exist")] } :=
  join_nonexistent_room_unchanged [] 0 "ROOMX" "GGGGGG" "User0000"
    (by decide) rfl

/-- C9: handle_disconnect is idempotent: when the connection is not a
member of the room it removes no name and leaves the registry unchanged,
and running it twice in a row equals running it once. -/
theorem handle_disconnect_idempotent (rooms : Rooms) (ws : Nat) (code : String) :
    ((alookup rooms code).bind (fun mem => alookup mem ws) = none →
       handle_disconnect rooms ws code = (rooms, none, [])) ∧
    handle_disconnect (handle_disconnect rooms ws code).1 ws code =
      ((handle_disconnect rooms ws code).1, none, []) := by
  constructor
  · intro hnm
    cases hrm : alookup rooms code with
    | none => exact hd_eq_noroom rooms ws code hrm
    | some mem =>
        rw [hrm] at hnm
        exact hd_eq_notmem rooms ws code mem hrm (by simpa using hnm)
  · cases hrm : alookup rooms code with
    | none =>
        rw [hd_eq_noroom rooms ws code hrm]
        exact hd_eq_noroom rooms ws code hrm
    | some mem =>
        cases hws : alookup mem ws with
        | none =>
            rw [hd_eq_notmem rooms ws code mem hrm hws]
            exact hd_eq_notmem rooms ws code mem hrm hws
        | some name =>
            by_cases hemp : aerase mem ws = []
            · rw [hd_eq_last rooms ws code mem name hrm hws hemp]
              exact hd_eq_noroom _ ws code (alookup_aerase_self rooms code)
            · rw [hd_eq_rem rooms ws code mem name hrm hws hemp]
              exact hd_eq_notmem _ ws code (aerase mem ws)
                (alookup_aset_self _ _ _) (alookup_aerase_self mem ws)

/-- Witness for C9 on a room whose sole member is another connection. -/
theorem handle_disconnect_idempotent_witness :
    handle_disconnect roomsOne 0 "ROOMA" = (roomsOne, none, []) ∧
    handle_disconnect (handle_disconnect roomsOne 0 "ROOMA").1 0 "ROOMA" =
      ((handle_disconnect roomsOne 0 "ROOMA").1, none, []) :=
  ⟨(handle_disconnect_idempotent roomsOne 0 "ROOMA").1 rfl,
   (handle_disconnect_idempotent roomsOne 0 "ROOMA").2⟩

/-- C6 (amended): a create frame without a code uses the random outcome as
the room code verbatim, with no uniqueness re-check against the registry:
the requester is stored under that code whether or not a live room already
uses it. -/
theorem create_auto_code_unchecked (rooms : Rooms) (cur : Option String)
    (ws : Nat) (g u : String) :
    handleData ws createMsgAuto g u rooms cur =
      some { rooms := aset rooms g (aset ((alookup rooms g).getD []) ws u),
             cur := some g, sends := [(ws, roomCreatedEnv g u)] } := by
  simp [handleData, createMsgAuto, normalize_incoming, Json.get, alookup]

/-- Counterexample to C6 as stated: AAAAAA is a possible outcome of the
6-character generator, the reachable state sCol has a live room AAAAAA,
and a create without a code drawing that outcome reuses the id and adds
the requester to the existing room. -/
theorem generated_code_collision_cex :
    Reachable sCol ∧
    validGenCode "AAAAAA" = true ∧
    (alookup sCol.rooms "AAAAAA").isSome = true ∧
    (handleData 0 createMsgAuto "AAAAAA" "User0000" sCol.rooms none).map
        (fun res => (res.cur, alookup res.rooms "AAAAAA")) =
      some (some "AAAAAA", some [(1, "User1111"), (0, "User0000")]) :=
  ⟨Reachable.step _ _ Reachable.init, rfl, rfl, rfl⟩

/-- C7 (amended): text that json.loads rejects is silently dropped with no
reply and no state change; a JSON object carrying neither an action nor a
type key is answered with an Unknown-action-None error envelope; a join
missing its required code field with a Missing-room-code error envelope;
and a JSON object whose action string is none of the five recognized ones
with an error envelope naming that unknown action; in every case the
registry is unchanged and the connection stays open. -/
theorem malformed_input_handling :
    (∀ s ws g u, step s (Event.frame ws none g u) = s) ∧
    (∀ ws g u rooms cur fs, alookup fs "action" = none →
       alookup fs "type" = none →
       handleData ws (Json.obj fs) g u rooms cur =
         some { rooms := rooms, cur := cur,
                sends := [(ws, errorEnv "Unknown action: None")] }) ∧
    (∀ ws g u rooms cur,
       handleData ws (Json.obj [("action", Json.str "join")]) g u rooms cur =
         some { rooms := rooms, cur := cur,
                sends := [(ws, errorEnv "Missing room code")] }) ∧
    (∀ ws g u rooms cur fs a, alookup fs "action" = some (Json.str a) →
       a ≠ "create" → a ≠ "join" → a ≠ "leave" → a ≠ "message" →
       a ≠ "file" →
       handleData ws (Json.obj fs) g u rooms cur =
         some { rooms := rooms, cur := cur,
                sends := [(ws, errorEnv ("Unknown action: " ++ a))] }) := by
  refine ⟨fun s ws g u => rfl, ?_, ?_, ?_⟩
  · intro ws g u rooms cur fs ha ht
    simp [handleData, normalize_incoming, ha, ht, optPyStr]
  · intro ws g u rooms cur
    simp [handleData, normalize_incoming, Json.get, alookup]
  · intro ws g u rooms cur fs a ha h1 h2 h3 h4 h5
    have hk : (normalize_incoming (Json.obj fs)).1 = some (Json.str a) := by
      simp [normalize_incoming, ha]
    simp [handleData, hk, optPyStr, Json.pyStr, h1, h2, h3, h4, h5]

/-- Witness for C7 (amended) on a JSON object with no dispatch key and on
one with the unrecognized action foo. -/
theorem malformed_input_handling_witness :
    (handleData 0 (Json.obj [("x", Json.null)]) "GGGGGG" "User0000" [] none =
      some { rooms := [], cur := none,
             sends := [(0, errorEnv "Unknown action: None")] }) ∧
    (handleData 0 (Json.obj [("action", Json.str "foo")]) "GGGGGG"
        "User0000" [] none =
      some { rooms := [], cur := none,
             sends := [(0, errorEnv "Unknown action: foo")] }) :=
  ⟨malformed_input_handling.2.1 0 "GGGGGG" "User0000" [] none
     [("x", Json.null)] rfl rfl,
   malformed_input_handling.2.2.2 0 "GGGGGG" "User0000" [] none
     [("action", Json.str "foo")] "foo" rfl (by decide) (by decide)
     (by decide) (by decide) (by decide)⟩

/-- Counterexample to C7 as stated: a JSON object lacking both dispatch
keys is not ignored: the server answers it with an error envelope. -/
theorem missing_keys_error_cex :
    (handleData 0 (Json.obj []) "GGGGGG" "User0000" [] none).map
        (fun res => res.sends) =
      some [(0, errorEnv "Unknown action: None")] ∧
    alookup (errorEnv "Unknown action: None") "type" = some (Json.str "error") :=
  ⟨rfl, rfl⟩

/-- C1 (amended): a create frame with an explicit id of a live room sends
no error: it answers the requester with a room_created envelope and adds
the requester to the existing membership, leaving every other member's
entry unchanged. -/
theorem create_existing_adds_requester (rooms : Rooms) (ws : Nat)
    (code g u : String) (cur : Option String) (mem : Members)
    (hcode : code ≠ "") (hmem : alookup rooms code = some mem) :
    handleData ws (createMsg code) g u rooms cur =
      some { rooms := aset rooms code (aset mem ws u), cur := some code,
             sends := [(ws, roomCreatedEnv code u)] } ∧
    ∀ c, c ≠ ws → alookup (aset mem ws u) c = alookup mem c := by
  constructor
  · simp [handleData, createMsg, normalize_incoming, Json.get, alookup,
      Json.truthy, Json.pyStr, hcode, hmem]
  · intro c hc
    exact alookup_aset_ne _ ws c _ (Ne.symm hc)

/-- Witness for C1 (amended) against a live room owned by connection 1. -/
theorem create_existing_adds_requester_witness :
    handleData 0 (createMsg "ROOMA") "GGGGGG" "User0000" roomsOne none =
      some { rooms := aset roomsOne "ROOMA" (aset [(1, "User1111")] 0 "User0000"),
             cur := some "ROOMA",
             sends := [(0, roomCreatedEnv "ROOMA" "User0000")] } :=
  (create_existing_adds_requester roomsOne 0 "ROOMA" "GGGGGG" "User0000" none
    [(1, "User1111")] (by decide) rfl).1

/-- Counterexample to C1 as stated: in the reachable state sROne the room
ROOMA is live with member connection 1; a create for ROOMA from connection
0 sends only a room_created envelope (no error envelope) and mutates the
room's membership by adding the requester. -/
theorem create_existing_room_cex :
    Reachable sROne ∧
    (handleData 0 (createMsg "ROOMA") "GGGGGG" "User0000" sROne.rooms
        (sROne.cur 0)).map
        (fun res => (res.sends, alookup ((alookup res.rooms "ROOMA").getD []) 0,
                     alookup ((alookup res.rooms "ROOMA").getD []) 1)) =
      some ([(0, roomCreatedEnv "ROOMA" "User0000")], some "User0000",
            some "User1111") ∧
    alookup (roomCreatedEnv "ROOMA" "User0000") "type" =
      some (Json.str "room_created") :=
  ⟨Reachable.step _ _ Reachable.init, rfl, rfl⟩

/-- C2 (amended): a message or file frame from a connection whose current
room is live broadcasts the new_message or new_file envelope to every
current member of the room, the sender included. -/
theorem broadcast_includes_sender (rooms : Rooms) (ws : Nat)
    (r text g u fn ft fd : String) (mem : Members) (hr : r ≠ "")
    (hmem : alookup rooms r = some mem) :
    handleData ws (messageMsg text) g u rooms (some r) =
      some { rooms := rooms, cur := some r,
             sends := mem.map (fun m =>
               (m.1, newMessageEnv ((alookup mem ws).getD "Unknown")
                 (Json.str text))) } ∧
    handleData ws (fileMsgSpec fn ft fd) g u rooms (some r) =
      some { rooms := rooms, cur := some r,
             sends := mem.map (fun m =>
               (m.1, newFileEnv none none ((alookup mem ws).getD "Unknown"))) } := by
  constructor <;>
    simp [handleData, messageMsg, fileMsgSpec, normalize_incoming, Json.get,
      alookup, curTruthy, hr, hmem]

/-- Witness for C2 (amended) in the two-member room of sPair. -/
theorem broadcast_includes_sender_witness :
    handleData 0 (messageMsg "hi") "GGGGGG" "UserX" sPair.rooms
        (some "ROOM01") =
      some { rooms := sPair.rooms, cur := some "ROOM01",
             sends := [(0, newMessageEnv "User0000" (Json.str "hi")),
                       (1, newMessageEnv "User0000" (Json.str "hi"))] } :=
  (broadcast_includes_sender sPair.rooms 0 "ROOM01" "hi" "GGGGGG" "UserX"
    "f" "t" "d" [(0, "User0000"), (1, "User1111")] (by decide) rfl).1

/-- Counterexample to C2 as stated: in the reachable state sPair the
sender, connection 0, receives its own new_message envelope back. -/
theorem message_echoed_to_sender_cex :
    Reachable sPair ∧
    sPair.cur 0 = some "ROOM01" ∧
    memberOfR sPair.rooms 0 "ROOM01" ∧
    (handleData 0 (messageMsg "hi") "GGGGGG" "UserX" sPair.rooms
        (sPair.cur 0)).map (fun res => res.sends) =
      some [(0, newMessageEnv "User0000" (Json.str "hi")),
            (1, newMessageEnv "User0000" (Json.str "hi"))] :=
  ⟨Reachable.step _ _ (Reachable.step _ _ Reachable.init), rfl,
   ⟨[(0, "User0000"), (1, "User1111")], rfl, rfl⟩, rfl⟩

/-- C8 (amended): a file frame from a connection whose current room is
live broadcasts to every member (sender included) a new_file envelope
carrying the name and url fields read from the inbound payload together
with the sender's display name; no filename, filetype or filedata fields
are propagated. -/
theorem file_broadcast_name_url (rooms : Rooms) (ws : Nat) (r g u : String)
    (mem : Members) (data : Json) (hr : r ≠ "")
    (hk : (normalize_incoming data).1 = some (Json.str "file"))
    (hmem : alookup rooms r = some mem) :
    handleData ws data g u rooms (some r) =
      some { rooms := rooms, cur := some r,
             sends := mem.map (fun m =>
               (m.1, newFileEnv (data.get "name") (data.get "url")
                 ((alookup mem ws).getD "Unknown"))) } := by
  simp [handleData, hk, curTruthy, hr, hmem]

/-- Witness for C8 (amended) on a spec-shaped file payload in sPair. -/
theorem file_broadcast_name_url_witness :
    handleData 0 (fileMsgSpec "notes.txt" "text/plain" "QUJD") "GGGGGG"
        "UserX" sPair.rooms (some "ROOM01") =
      some { rooms := sPair.rooms, cur := some "ROOM01",
             sends := [(0, newFileEnv none none "User0000"),
                       (1, newFileEnv none none "User0000")] } :=
  file_broadcast_name_url sPair.rooms 0 "ROOM01" "GGGGGG" "UserX"
    [(0, "User0000"), (1, "User1111")]
    (fileMsgSpec "notes.txt" "text/plain" "QUJD") (by decide) rfl rfl

/-- Counterexample to C8 as stated: the broadcast new_file envelope for a
payload carrying filename, filetype and filedata exposes none of those
fields: it carries name and url (both null here) instead. -/
theorem file_fields_cex :
    (handleData 0 (fileMsgSpec "notes.txt" "text/plain" "QUJD") "GGGGGG"
        "UserX" sPair.rooms (sPair.cur 0)).map (fun res => res.sends) =
      some [(0, newFileEnv none none "User0000"),
            (1, newFileEnv none none "User0000")] ∧
    alookup (newFileEnv none none "User0000") "filename" = none ∧
    alookup (newFileEnv none none "User0000") "filetype" = none ∧
    alookup (newFileEnv none none "User0000") "filedata" = none :=
  ⟨rfl, rfl, rfl, rfl⟩

/-- C3 (amended): a connection that is a member of one room and processes
a create, or a successful join, for a different room stays a member of the
first room while also becoming a member of the second: memberships
accumulate instead of being exclusive. -/
theorem create_join_keep_previous_membership (rooms : Rooms)
    (cur : Option String) (ws : Nat) (rA rB n g u : String) (mem : Members)
    (hA : alookup rooms rA = some mem) (hn : alookup mem ws = some n)
    (hAB : rA ≠ rB) (hB : rB ≠ "") :
    (handleData ws (createMsg rB) g u rooms cur).map
        (fun res => (alookup ((alookup res.rooms rA).getD []) ws,
                     alookup ((alookup res.rooms rB).getD []) ws)) =
      some (some n, some u) ∧
    (∀ memB, alookup rooms rB = some memB →
       (handleData ws (joinMsg rB) g u rooms cur).map
           (fun res => (alookup ((alookup res.rooms rA).getD []) ws,
                        alookup ((alookup res.rooms rB).getD []) ws)) =
         some (some n, some u)) := by
  constructor
  · rw [show handleData ws (createMsg rB) g u rooms cur =
        some { rooms := aset rooms rB (aset ((alookup rooms rB).getD []) ws u),
               cur := some rB, sends := [(ws, roomCreatedEnv rB u)] } from by
      simp [handleData, createMsg, normalize_incoming, Json.get, alookup,
        Json.truthy, Json.pyStr, hB]]
    simp only [Option.map_some']
    rw [alookup_aset_ne _ rB rA _ (Ne.symm hAB), hA, alookup_aset_self]
    simp only [Option.getD_some]
    rw [hn, alookup_aset_self]
  · intro memB hmemB
    rw [show handleData ws (joinMsg rB) g u rooms cur =
        some { rooms := aset rooms rB (aset memB ws u), cur := some rB,
               sends := (ws, joinedSuccessEnv rB u) ::
                 (aset memB ws u).map (fun m => (m.1, userJoinedEnv u)) } from by
      simp [handleData, joinMsg, normalize_incoming, Json.get, alookup,
        Json.truthy, hB, hmemB]]
    simp only [Option.map_some']
    rw [alookup_aset_ne _ rB rA _ (Ne.symm hAB), hA, alookup_aset_self]
    simp only [Option.getD_some]
    rw [hn, alookup_aset_self]

/-- Witness for C3 (amended): connection 0 sits in ROOMA and creates
ROOMB. -/
theorem create_join_keep_previous_membership_witness :
    (handleData 0 (createMsg "ROOMB") "GGGGGG" "UserB" sOne.rooms
        (sOne.cur 0)).map
        (fun res => (alookup ((alookup res.rooms "ROOMA").getD []) 0,
                     alookup ((alookup res.rooms "ROOMB").getD []) 0)) =
      some (some "User0000", some "UserB") :=
  (create_join_keep_previous_membership sOne.rooms (sOne.cur 0) 0 "ROOMA"
    "ROOMB" "User0000" "GGGGGG" "UserB" [(0, "User0000")] rfl rfl
    (by decide) (by decide)).1

/-- Counterexample to C3 as stated: in the reachable state sTwoRooms the
single connection 0 is simultaneously a member of ROOMA and of ROOMB. -/
theorem member_of_two_rooms_cex :
    Reachable sTwoRooms ∧
    memberOfR sTwoRooms.rooms 0 "ROOMA" ∧
    memberOfR sTwoRooms.rooms 0 "ROOMB" :=
  ⟨Reachable.step _ _ (Reachable.step _ _ Reachable.init),
   ⟨[(0, "UserA")], rfl, rfl⟩, ⟨[(0, "UserB")], rfl, rfl⟩⟩

/-- C4 (amended): in every reachable state no registered room has an empty
member dict.  When a connection leaves, or disconnects, while its current
room code denotes a room in which it is the sole member, that room's entry
is deleted; and for any id absent from the registry a join is answered
with a Room-does-not-exist error while a create succeeds, storing the
requester as sole member.  Deletion happens only through this cleanup of
the current room (or the sweep when no current room is set): stale
memberships of the connection in other rooms are not cleaned. -/
theorem no_empty_rooms_and_current_room_deletion (s : GState)
    (hs : Reachable s) :
    (∀ p ∈ s.rooms, p.2 ≠ []) ∧
    (∀ ws n r g u, s.cur ws = some r → r ≠ "" →
       alookup s.rooms r = some [(ws, n)] →
       (handleData ws leaveMsg g u s.rooms (s.cur ws)).map
           (fun res => (alookup res.rooms r, res.cur)) = some (none, none)) ∧
    (∀ ws n r, s.cur ws = some r → r ≠ "" →
       alookup s.rooms r = some [(ws, n)] →
       alookup (step s (Event.disconnect ws)).rooms r = none) ∧
    (∀ code ws g u, code ≠ "" → alookup s.rooms code = none →
       handleData ws (joinMsg code) g u s.rooms (s.cur ws) =
         some { rooms := s.rooms, cur := s.cur ws,
                sends := [(ws, errorEnv "Room does not exist")] } ∧
       handleData ws (createMsg code) g u s.rooms (s.cur ws) =
         some { rooms := aset s.rooms code [(ws, u)], cur := some code,
                sends := [(ws, roomCreatedEnv code u)] } ∧
       alookup (aset s.rooms code [(ws, u)]) code = some [(ws, u)]) := by
  refine ⟨(reachable_inv s hs).1, ?_, ?_, ?_⟩
  · intro ws n r g u hc hr hmem
    rw [show handleData ws leaveMsg g u s.rooms (s.cur ws) =
        some { rooms := (handle_disconnect s.rooms ws r).1, cur := none,
               sends := (handle_disconnect s.rooms ws r).2.2 ++
                 [(ws, errorEnv "Left room")] } from by
      simp [handleData, leaveMsg, normalize_incoming, alookup, hc,
        curTruthy, hr]]
    rw [hd_eq_last s.rooms ws r [(ws, n)] n hmem (by simp [alookup])
      (by simp [aerase])]
    simp only [Option.map_some']
    rw [alookup_aerase_self]
  · intro ws n r hc hr hmem
    have hct : curTruthy (s.cur ws) = true := by
      rw [hc]
      simp [curTruthy, hr]
    show alookup (doDisconnect ws s).rooms r = none
    unfold doDisconnect
    rw [if_pos hct]
    dsimp only
    rw [hc]
    rw [show (some r).getD "" = r from rfl]
    rw [hd_eq_last s.rooms ws r [(ws, n)] n hmem (by simp [alookup])
      (by simp [aerase])]
    exact alookup_aerase_self _ _
  · intro code ws g u hcode habs
    refine ⟨?_, ?_, alookup_aset_self _ _ _⟩
    · simp [handleData, joinMsg, normalize_incoming, Json.get, alookup,
        Json.truthy, hcode, habs]
    · simp [handleData, createMsg, normalize_incoming, Json.get, alookup,
        Json.truthy, Json.pyStr, aset, hcode, habs]

/-- Witness for C4 (amended): in sOne, connection 0 is the sole member of
its current room ROOMA, so leave and disconnect both delete the entry,
and the absent id ROOMX fails join. -/
theorem no_empty_rooms_and_current_room_deletion_witness :
    (handleData 0 leaveMsg "GGGGGG" "UserX" sOne.rooms (sOne.cur 0)).map
        (fun res => (alookup res.rooms "ROOMA", res.cur)) =
      some (none, none) ∧
    alookup (step sOne (Event.disconnect 0)).rooms "ROOMA" = none ∧
    handleData 1 (joinMsg "ROOMX") "GGGGGG" "User1111" sOne.rooms
        (sOne.cur 1) =
      some { rooms := sOne.rooms, cur := sOne.cur 1,
             sends := [(1, errorEnv "Room does not exist")] } :=
  ⟨(no_empty_rooms_and_current_room_deletion sOne
      (Reachable.step _ _ Reachable.init)).2.1 0 "User0000" "ROOMA" "GGGGGG"
      "UserX" rfl (by decide) rfl,
   (no_empty_rooms_and_current_room_deletion sOne
      (Reachable.step _ _ Reachable.init)).2.2.1 0 "User0000" "ROOMA" rfl
      (by decide) rfl,
   ((no_empty_rooms_and_current_room_deletion sOne
      (Reachable.step _ _ Reachable.init)).2.2.2 "ROOMX" 1 "GGGGGG"
      "User1111" (by decide) rfl).1⟩

/-- Counterexample to C4 as stated: in sTwoRooms connection 0 is the sole
member of both ROOMA and ROOMB with current room ROOMB; its disconnect
cleans only ROOMB, so ROOMA survives holding only the disconnected
member, and a later join to ROOMA by connection 2 succeeds with
joined_success instead of failing with a room-not-found error. -/
theorem stale_room_after_disconnect_cex :
    Reachable sStale ∧
    sStale.rooms = [("ROOMA", [(0, "UserA")])] ∧
    sStale.cur 0 = none ∧
    handleData 2 (joinMsg "ROOMA") "GGGGGG" "User2222" sStale.rooms
        (sStale.cur 2) =
      some { rooms := [("ROOMA", [(0, "UserA"), (2, "User2222")])],
             cur := some "ROOMA",
             sends := [(2, joinedSuccessEnv "ROOMA" "User2222"),
                       (0, userJoinedEnv "User2222"),
                       (2, userJoinedEnv "User2222")] } :=
  ⟨Reachable.step _ _ (Reachable.step _ _ (Reachable.step _ _ Reachable.init)),
   rfl, rfl, rfl⟩

theorem handleData_msgfile_isSome (ws : Nat) (data : Json) (g u : String)
    (rooms : Rooms) (cur : Option String)
    (h : ∀ r, cur = some r → (alookup rooms r).isSome)
    (hk : (normalize_incoming data).1 = some (Json.str "message") ∨
          (normalize_incoming data).1 = some (Json.str "file")) :
    (handleData ws data g u rooms cur).isSome := by
  rcases hk with hk | hk
  · cases hcur : cur with
    | none => simp [handleData, hk, curTruthy]
    | some r =>
        by_cases hre : r = ""
        · simp [handleData, hk, curTruthy, hre]
        · have hsome := h r hcur
          cases hmem : alookup rooms r with
          | none => rw [hmem] at hsome; simp at hsome
          | some mem => simp [handleData, hk, curTruthy, hre, hmem]
  · cases hcur : cur with
    | none => simp [handleData, hk, curTruthy]
    | some r =>
        by_cases hre : r = ""
        · simp [handleData, hk, curTruthy, hre]
        · cases hmem : alookup rooms r with
          | none => simp [handleData, hk, curTruthy, hre, hmem]
          | some mem => simp [handleData, hk, curTruthy, hre, hmem]

/-- C10: in every reachable state, a connection whose current room code is
set points at a live room it is a member of; consequently the message and
file handlers, including the unguarded ROOMS[current_room_code] lookup of
the message branch, dispatch without raising. -/
theorem current_room_always_live (s : GState) (hs : Reachable s) (ws : Nat) :
    (∀ r, s.cur ws = some r →
       ∃ mem, alookup s.rooms r = some mem ∧ (alookup mem ws).isSome) ∧
    (∀ data g u,
       (normalize_incoming data).1 = some (Json.str "message") ∨
       (normalize_incoming data).1 = some (Json.str "file") →
       (handleData ws data g u s.rooms (s.cur ws)).isSome) := by
  have hinv := reachable_inv s hs
  refine ⟨fun r hr => hinv.2 ws r hr, ?_⟩
  intro data g u hk
  apply handleData_msgfile_isSome
  · intro r hr
    obtain ⟨mem, hm, _⟩ := hinv.2 ws r hr
    rw [hm]
    rfl
  · exact hk

/-- Witness for C10 in the reachable state sOne: connection 0 has current
room ROOMA, which is live with 0 as a member, and message and file frames
dispatch without raising. -/
theorem current_room_always_live_witness :
    (∃ mem, alookup sOne.rooms "ROOMA" = some mem ∧ (alookup mem 0).isSome) ∧
    (handleData 0 (messageMsg "hi") "GGGGGG" "UserX" sOne.rooms
      (sOne.cur 0)).isSome ∧
    (handleData 0 (fileMsgSpec "f" "t" "d") "GGGGGG" "UserX" sOne.rooms
      (sOne.cur 0)).isSome :=
  ⟨(current_room_always_live sOne (Reachable.step _ _ Reachable.init) 0).1
     "ROOMA" rfl,
   (current_room_always_live sOne (Reachable.step _ _ Reachable.init) 0).2
     (messageMsg "hi") "GGGGGG" "UserX" (Or.inl rfl),
   (current_room_always_live sOne (Reachable.step _ _ Reachable.init) 0).2
     (fileMsgSpec "f" "t" "d") "GGGGGG" "UserX" (Or.inr rfl)⟩

end SecureCom
